import Mathlib

/-!
Verification of the Home Departure Board backend (app.py) against its
natural-language specification.

Strings are embedded as lists of characters (`Str`), so that the Python
string operations used by the code (substring containment, first-occurrence
split, strip, lower, whitespace tokenization) become executable recursive
functions with provable properties.  Machine integers and epoch timestamps
are embedded as `Int`; Python `int(x)` applied to a real quotient of
integers is truncation toward zero, i.e. `Int.tdiv`.  Fallible code is
embedded with `Except`/`Option`.
-/

/-- Strings of the Python source, as character lists. -/
abbrev Str := List Char

/-- Coerce a Lean string literal into the character-list representation. -/
def str (s : String) : Str := s.toList

/-- Python `c.isspace()` for the ASCII whitespace characters
(space, tab, newline, vertical tab, form feed, carriage return). -/
def isSpace (c : Char) : Bool :=
  c = Char.ofNat 32 || c = Char.ofNat 9 || c = Char.ofNat 10 || c = Char.ofNat 11 ||
  c = Char.ofNat 12 || c = Char.ofNat 13

/-- Python `s.lower()` (ASCII; the headsigns the claims touch are ASCII). -/
def lowerStr (s : Str) : Str := s.map Char.toLower

/-- Python `s.startswith(p)`. -/
def strStartsWith : Str → Str → Bool
  | [], _ => true
  | _ :: _, [] => false
  | a :: as, b :: bs => if a = b then strStartsWith as bs else false

/-- Python `needle in hay` (substring containment). -/
def containsSub (needle : Str) : Str → Bool
  | [] => needle = []
  | c :: rest => strStartsWith needle (c :: rest) || containsSub needle rest

/-- Python `s.split(sep, 1)`: the part before the first occurrence of `sep`,
and `some` part after it when `sep` occurs (`none` when it does not). -/
def splitFirst (sep : Str) : Str → Str × Option Str
  | [] => ([], none)
  | c :: rest =>
    if strStartsWith sep (c :: rest) then ([], some ((c :: rest).drop sep.length))
    else (c :: (splitFirst sep rest).1, (splitFirst sep rest).2)

/-- Python `s.strip()`. -/
def stripStr (s : Str) : Str :=
  ((s.dropWhile isSpace).reverse.dropWhile isSpace).reverse

/-- Python `s.split()[0]` made total: the first whitespace-delimited token
of `s`, or `none` when `s` is empty or all whitespace (where Python raises
an IndexError). -/
def firstToken (s : Str) : Option Str :=
  match s.dropWhile isSpace with
  | [] => none
  | c :: rest => some ((c :: rest).takeWhile (fun x => !isSpace x))

/-- Python `s.replace(old, new, 1)`. -/
def replaceFirst (old new s : Str) : Str :=
  match splitFirst old s with
  | (b, some a) => b ++ new ++ a
  | (_, none) => s

/-- The French-to-English cardinal-direction table of `translate_direction`
(`translation_map` in app.py), in dict insertion order. -/
def translationPairs : List (Str × Str) :=
  [(str "Nord", str "North"), (str "Sud", str "South"),
   (str "Est", str "East"), (str "Ouest", str "West"),
   (str "Nord via", str "North via"), (str "Sud via", str "South via"),
   (str "Est via", str "East via"), (str "Ouest via", str "West via")]

/-- Association-list lookup with list-membership key equality, modelling a
Python dict lookup over the small literal tables of app.py. -/
def lookupAssoc : List (Str × Str) → Str → Option Str
  | [], _ => none
  | (k, v) :: rest, c => if k = c then some v else lookupAssoc rest c

/-- The cardinal-translation tail of `translate_direction`: exact dict
lookup first, then the first `startswith` match replaced once, else the
headsign unchanged. -/
def translationStep (h : Str) : Str :=
  match lookupAssoc translationPairs h with
  | some e => e
  | none =>
    match translationPairs.find? (fun p => strStartsWith p.1 h) with
    | some p => replaceFirst p.1 p.2 h
    | none => h

/-- The destination branch of `translate_direction`: when the lowercased
headsign contains the token, the part after the first case-sensitive
occurrence (when one exists). -/
def afterDest (h : Str) : Option Str :=
  if containsSub (str "destination") (lowerStr h) then (splitFirst (str "destination") h).2
  else none

/-- Function translate_direction from app.py.  `Except Unit` models the reachable
IndexError: Python evaluates `headsign.split(sep, 1)[1].split()[0]`, which
raises when the text after the first occurrence of the token `Station ` is
empty or all whitespace. -/
def translateDirection (h : Str) : Except Unit Str :=
  if h = [] then .ok h
  else
    match afterDest h with
    | some after => .ok (stripStr after)
    | none =>
      if containsSub (str "Station") h then
        if containsSub (str "Station ") h then
          match firstToken ((splitFirst (str "Station ") h).2.getD []) with
          | some w => .ok (str "Station " ++ w)
          | none => .error ()
        else .ok (translationStep h)
      else .ok (translationStep h)

deriving instance DecidableEq for Except

/-! ### Properties of the string primitives -/

theorem strStartsWith_append_drop : ∀ {p s : Str}, strStartsWith p s = true → s = p ++ s.drop p.length
  | [], s, _ => by simp
  | a :: as, [], h => by simp [strStartsWith] at h
  | a :: as, b :: bs, h => by
    unfold strStartsWith at h
    split at h
    · next heq =>
      subst heq
      simpa using strStartsWith_append_drop h
    · exact absurd h (by simp)

theorem strStartsWith_self_append : ∀ (p t : Str), strStartsWith p (p ++ t) = true
  | [], _ => rfl
  | a :: as, t => by simpa [strStartsWith] using strStartsWith_self_append as t

theorem splitFirst_eq {sep : Str} :
    ∀ {h b a : Str}, splitFirst sep h = (b, some a) → h = b ++ sep ++ a := by
  intro h
  induction h with
  | nil => intro b a hsp; simp [splitFirst] at hsp
  | cons c rest ih =>
    intro b a hsp
    unfold splitFirst at hsp
    split at hsp
    · next hpre =>
      injection hsp with hb ha
      injection ha with ha
      subst hb
      have hd := strStartsWith_append_drop hpre
      rw [ha] at hd
      simpa using hd
    · injection hsp with hb ha
      subst hb
      have hrest := ih (b := (splitFirst sep rest).1) (a := a) (by rw [← ha])
      simp only [List.cons_append, List.append_assoc] at hrest ⊢
      exact congrArg (fun t => c :: t) hrest

theorem contains_splitFirst {sep : Str} (hsep : sep ≠ []) :
    ∀ {h : Str}, containsSub sep h = true → ∃ a, (splitFirst sep h).2 = some a := by
  intro h
  induction h with
  | nil => intro hc; simp [containsSub, hsep] at hc
  | cons c rest ih =>
    intro hc
    unfold containsSub at hc
    unfold splitFirst
    rcases Bool.or_eq_true_iff.mp hc with hpre | hrest
    · exact ⟨_, by rw [if_pos hpre]⟩
    · obtain ⟨a, ha⟩ := ih hrest
      split
      · exact ⟨_, rfl⟩
      · exact ⟨a, ha⟩

theorem contains_nil_needle : ∀ (s : Str), containsSub [] s = true
  | [] => by decide
  | c :: rest => by simp [containsSub, strStartsWith]

theorem contains_append_middle : ∀ (sep b a : Str), containsSub sep (b ++ sep ++ a) = true
  | sep, [], a => by
    match sep with
    | [] => simpa using contains_nil_needle a
    | s0 :: ss => simp [containsSub, strStartsWith, strStartsWith_self_append]
  | sep, x :: xs, a => by
    have ih := contains_append_middle sep xs a
    have hshape : (x :: xs) ++ sep ++ a = x :: (xs ++ sep ++ a) := by simp
    rw [hshape]
    unfold containsSub
    rw [ih]
    simp

theorem contains_exists {sep : Str} (hsep : sep ≠ []) {h : Str}
    (hc : containsSub sep h = true) : ∃ b a, h = b ++ sep ++ a := by
  obtain ⟨a, ha⟩ := contains_splitFirst hsep hc
  exact ⟨(splitFirst sep h).1, a, splitFirst_eq (by rw [← ha])⟩

theorem contains_map (f : Char → Char) {n h : Str} (hc : containsSub n h = true) :
    containsSub (n.map f) (h.map f) = true := by
  by_cases hn : n = []
  · subst hn; simpa using contains_nil_needle (h.map f)
  · obtain ⟨b, a, hba⟩ := contains_exists hn hc
    subst hba
    rw [List.map_append, List.map_append]
    exact contains_append_middle _ _ _

theorem firstToken_none {s : Str} (hft : firstToken s = none) :
    ∀ c ∈ s, isSpace c = true := by
  unfold firstToken at hft
  split at hft
  · next hdw => exact List.dropWhile_eq_nil_iff.mp hdw
  · exact absurd hft (by simp)

/-- Claim C8, counterexample.  For the headsign "destination Foo" the exact
character sequence following the token "destination" is " Foo" (with its
leading space), but translate_direction returns the stripped text "Foo",
so the output is not the verbatim character sequence after the token. -/
theorem c8_counterexample :
    (splitFirst (str "destination") (str "destination Foo")).2 = some (str " Foo") ∧
    translateDirection (str "destination Foo") = .ok (str "Foo") ∧
    str "Foo" ≠ str " Foo" := by decide

/-- Claim C8, amended.  For every headsign containing the lowercase token
"destination" literally, translate_direction returns the text after the
first occurrence of that token with surrounding whitespace stripped (not
verbatim; and a headsign matching the token only case-insensitively falls
through to the later normalization steps instead). -/
theorem c8_destination_after_token (h : Str)
    (hc : containsSub (str "destination") h = true) :
    translateDirection h = .ok (stripStr ((splitFirst (str "destination") h).2.getD [])) := by
  obtain ⟨a, ha⟩ := contains_splitFirst (by decide) hc
  have hlow : containsSub (str "destination") (lowerStr h) = true := by
    have hm := contains_map Char.toLower hc
    have hfix : (str "destination").map Char.toLower = str "destination" := by decide
    rw [hfix] at hm
    exact hm
  have hne : ¬h = [] := by
    intro he
    rw [he] at hc
    exact absurd hc (by decide)
  have hA : afterDest h = some a := by
    unfold afterDest
    rw [if_pos hlow, ha]
  unfold translateDirection
  rw [if_neg hne, hA, ha]
  rfl

/-- Witness for the amended C8 theorem at the concrete headsign
"destination Foo". -/
theorem c8_witness :
    translateDirection (str "destination Foo") =
      .ok (stripStr ((splitFirst (str "destination") (str "destination Foo")).2.getD [])) :=
  c8_destination_after_token (str "destination Foo") (by decide)

/-- Claim C10.  translate_direction returns normally for every headsign in
which each occurrence of the substring "Station " is followed by at least
one non-whitespace character, and without that precondition the error
branch is reachable: a headsign that is exactly "Station " (text after the
first occurrence empty) raises the IndexError. -/
theorem c10_station_totality :
    (∀ h : Str,
        (∀ pre post : Str, h = pre ++ str "Station " ++ post →
            ∃ c ∈ post, isSpace c = false) →
        (translateDirection h).isOk = true) ∧
    translateDirection (str "Station ") = .error () := by
  constructor
  · intro h hyp
    unfold translateDirection
    split
    · rfl
    · split
      · rfl
      · split
        · split
          · next hsp =>
            split
            · rfl
            · next hft =>
              exfalso
              obtain ⟨a, ha⟩ := @contains_splitFirst (str "Station ") (by decide) h hsp
              have hdecomp := @splitFirst_eq (str "Station ") h
                  (splitFirst (str "Station ") h).1 a (by rw [← ha])
              obtain ⟨c, hmem, hns⟩ := hyp _ _ hdecomp
              rw [ha] at hft
              simp only [Option.getD_some] at hft
              have hsp2 := firstToken_none hft c hmem
              rw [hsp2] at hns
              exact absurd hns (by simp)
          · rfl
        · rfl
  · decide

/-- Witness for C10 at the concrete headsign "Nord", which has no
occurrence of "Station " at all. -/
theorem c10_witness : (translateDirection (str "Nord")).isOk = true := by
  apply c10_station_totality.1
  intro pre post heq
  exfalso
  have h1 : (str "Nord").length = 4 := by decide
  have h2 : (str "Station ").length = 8 := by decide
  have hlen := congrArg List.length heq
  rw [h1, List.length_append, List.length_append, h2] at hlen
  omega

example : translateDirection (str "Nord") = .ok (str "North") := by decide
example : translateDirection (str "Nord via X") = .ok (str "North via X") := by decide
example : translateDirection (str "destination Foo") = .ok (str "Foo") := by decide
example : translateDirection (str "Station Angrignon ouest") = .ok (str "Station Angrignon") := by decide
example : translateDirection (str "Station ") = .error () := by decide
example : translateDirection (str "Destination Foo") = .ok (str "Destination Foo") := by decide

/-! ### Real-time departure pipeline (fetch_stm_departures) -/

/-- GTFS-Realtime trip descriptor fields read by the pipeline; a `none`
models a protobuf field for which HasField is false. -/
structure TripDescriptor where
  trip_id : Option Str
  route_id : Option Str
  direction_id : Option Nat
deriving DecidableEq, Repr

/-- GTFS-Realtime stop-time update: stop id plus optional arrival and
departure event instants in epoch seconds. -/
structure StopTimeUpdate where
  stop_id : Str
  arrival : Option Int
  departure : Option Int
deriving DecidableEq, Repr

/-- GTFS-Realtime trip update: the trip descriptor and its stop-time
updates.  Feed entities without a trip_update field contribute nothing and
are not represented. -/
structure TripUpdate where
  trip : TripDescriptor
  stop_time_update : List StopTimeUpdate
deriving DecidableEq, Repr

/-- Output departure record of fetch_stm_departures.  The two formatted
time strings of the Python dict are represented by the raw epoch second of
the event (`scheduled_time`). -/
structure DepartureRecord where
  route_number : Str
  direction : Option Str
  direction_id : Option Nat
  arrival_minutes : Int
  scheduled_time : Int
  trip_id : Str
deriving DecidableEq, Repr

/-- Python truthiness of an optional string (None and the empty string are
falsy). -/
def truthy : Option Str → Bool
  | some s => !s.isEmpty
  | none => false

/-- The arrival-or-departure event instant: arrival.time when the arrival
field is present, else departure.time when present. -/
def rawEventTime (stu : StopTimeUpdate) : Option Int :=
  match stu.arrival with
  | some t => some t
  | none => stu.departure

/-- CUSTOM_TERMINUS_MAP from app.py: route id to its per-cardinal terminus
override entries. -/
def customTerminusLookup (route : Str) : Option (List (Str × Str)) :=
  if route = str "107" then
    some [(str "West", str "Verdun"), (str "East", str "Square Victoria")]
  else if route = str "71" then
    some [(str "North", str "Guy Concordia"),
          (str "South", str "De L" ++ [Char.ofNat 39] ++ str "Eglise")]
  else if route = str "57" then
    some [(str "North", str "Charlevoix, Georges-Vanier, Atwater")]
  else none

/-- Override entry for a (route, cardinal) pair. -/
def overrideFor (route cardinal : Str) : Option Str :=
  match customTerminusLookup route with
  | some m => lookupAssoc m cardinal
  | none => none

/-- Cardinal direction extracted from a translated headsign: the text
itself when it is exactly one of the four cardinals, else the cardinal it
starts with (followed by a space), else none. -/
def extractCardinal (t : Str) : Option Str :=
  if t = str "North" ∨ t = str "South" ∨ t = str "East" ∨ t = str "West" then some t
  else if strStartsWith (str "North ") t then some (str "North")
  else if strStartsWith (str "South ") t then some (str "South")
  else if strStartsWith (str "East ") t then some (str "East")
  else if strStartsWith (str "West ") t then some (str "West")
  else none

/-- Cardinal-direction computation of fetch_stm_departures: a truthy
headsign is translated (which can raise, hence Except) and the cardinal is
extracted from the result; otherwise the cardinal is absent. -/
def computeCardinal (headsign : Option Str) : Except Unit (Option Str) :=
  match headsign with
  | some h =>
    if h.isEmpty then .ok none
    else
      match translateDirection h with
      | .ok translated => .ok (extractCardinal translated)
      | .error e => .error e
  | none => .ok none

/-- Direction resolution of fetch_stm_departures: the override entry for
(route, cardinal) when the route has an override table and a cardinal was
extracted; else the cardinal; else direction_id mapped 0 to Outbound and
1 to Inbound; else absent. -/
def resolveDirection (route : Str) (cardinal : Option Str)
    (directionId : Option Nat) : Option Str :=
  if (customTerminusLookup route).isSome ∧ truthy cardinal then
    match overrideFor route (cardinal.getD []) with
    | some ov => some ov
    | none => cardinal
  else if truthy cardinal then cardinal
  else
    match directionId with
    | some 0 => some (str "Outbound")
    | some 1 => some (str "Inbound")
    | _ => none

/-- The Direction Resolver contract of the spec: from the trip context
(route id, cached headsign, raw direction flag) to the resolved direction
and extracted cardinal. -/
def resolveFromHeadsign (route : Str) (headsign : Option Str)
    (dirId : Option Nat) : Except Unit (Option Str × Option Str) :=
  match computeCardinal headsign with
  | .error e => .error e
  | .ok card => .ok (resolveDirection route card dirId, card)

/-- The route-57-South suppression predicate of fetch_stm_departures, with
its three detection paths: cardinal equal to South, direction text
containing "South" or lowercase "south", direction text containing the
legacy marker "Costco". -/
def isRoute57South (route : Str) (cardinal : Option Str)
    (direction : Option Str) : Bool :=
  if route = str "57" then
    if cardinal = some (str "South") then true
    else
      match direction with
      | some d =>
        if d.isEmpty then false
        else if containsSub (str "South") d || containsSub (str "south") (lowerStr d) then true
        else containsSub (str "Costco") d
      | none => false
  else false

/-- Per-stop-time-update processing of fetch_stm_departures, for one trip
descriptor and one stop-time update: stop filter, event-time selection and
truthiness, minutes-until computation by Python int() truncation, the
0..60 inclusion window, direction resolution, route-57-South suppression,
and record construction.  `.ok none` means the update is skipped,
`.error` that translate_direction raised. -/
def processStopTimeUpdate (hs : Str → Option Str) (targets : List Str)
    (now : Int) (trip : TripDescriptor) (stu : StopTimeUpdate) :
    Except Unit (Option DepartureRecord) :=
  if stu.stop_id ∈ targets then
    match rawEventTime stu with
    | some t =>
      if t ≠ 0 then
        if 0 ≤ Int.tdiv (t - now) 60 ∧ Int.tdiv (t - now) 60 ≤ 60 then
          match computeCardinal (hs (trip.trip_id.getD [])) with
          | .error e => .error e
          | .ok cardinal =>
            if isRoute57South (trip.route_id.getD (str "N/A")) cardinal
                (resolveDirection (trip.route_id.getD (str "N/A")) cardinal trip.direction_id) then
              .ok none
            else
              .ok (some
                { route_number := trip.route_id.getD (str "N/A")
                  direction := resolveDirection (trip.route_id.getD (str "N/A")) cardinal trip.direction_id
                  direction_id := trip.direction_id
                  arrival_minutes := Int.tdiv (t - now) 60
                  scheduled_time := t
                  trip_id := trip.trip_id.getD [] })
        else .ok none
      else .ok none
    | none => .ok none
  else .ok none

/-- Sequential processing of the stop-time updates of one trip update; an
exception from any update aborts the whole fetch. -/
def collectTrip (hs : Str → Option Str) (targets : List Str) (now : Int)
    (trip : TripDescriptor) : List StopTimeUpdate → Except Unit (List DepartureRecord)
  | [] => .ok []
  | stu :: rest =>
    match processStopTimeUpdate hs targets now trip stu with
    | .error e => .error e
    | .ok r =>
      match collectTrip hs targets now trip rest with
      | .error e => .error e
      | .ok rs =>
        match r with
        | some d => .ok (d :: rs)
        | none => .ok rs

/-- Sequential processing of every trip update in the feed. -/
def collectFeed (hs : Str → Option Str) (targets : List Str) (now : Int) :
    List TripUpdate → Except Unit (List DepartureRecord)
  | [] => .ok []
  | tu :: rest =>
    match collectTrip hs targets now tu.trip tu.stop_time_update with
    | .error e => .error e
    | .ok l1 =>
      match collectFeed hs targets now rest with
      | .error e => .error e
      | .ok l2 => .ok (l1 ++ l2)

/-- fetch_stm_departures: collect matching departures, sort ascending by
arrival_minutes (Python list.sort is a stable sort; insertion sort is
extensionally the same stable sort), truncate to 20.  Any exception inside
the loop is caught by the outer handler which returns the empty list. -/
def fetchStmDepartures (hs : Str → Option Str) (targets : List Str)
    (now : Int) (feed : List TripUpdate) : List DepartureRecord :=
  match collectFeed hs targets now feed with
  | .ok deps =>
    (List.insertionSort (fun a b => a.arrival_minutes ≤ b.arrival_minutes) deps).take 20
  | .error _ => []

example :
    fetchStmDepartures (fun _ => some (str "Nord")) [str "S1"] 1000
      [⟨⟨some (str "t1"), some (str "57"), none⟩, [⟨str "S1", some 1300, none⟩]⟩] =
    [⟨str "57", some (str "Charlevoix, Georges-Vanier, Atwater"), none, 5, 1300, str "t1"⟩] := by
  decide

example :
    fetchStmDepartures (fun _ => none) [str "S1"] 1000
      [⟨⟨some (str "t1"), some (str "10"), none⟩, [⟨str "S1", some 970, none⟩]⟩] =
    [⟨str "10", none, none, 0, 970, str "t1"⟩] := by decide

example :
    fetchStmDepartures (fun _ => some (str "Sud")) [str "S1"] 1000
      [⟨⟨some (str "t1"), some (str "57"), none⟩, [⟨str "S1", some 1300, none⟩]⟩] = [] := by
  decide

/-! ### Pipeline lemmas -/

/-- Any record in an ok result of collectTrip comes from one stop-time
update processed to exactly that record. -/
theorem mem_collectTrip {hs : Str → Option Str} {targets : List Str} {now : Int}
    {trip : TripDescriptor} :
    ∀ {l : List StopTimeUpdate} {deps : List DepartureRecord},
      collectTrip hs targets now trip l = .ok deps → ∀ {r : DepartureRecord}, r ∈ deps →
      ∃ stu ∈ l, processStopTimeUpdate hs targets now trip stu = .ok (some r) := by
  intro l
  induction l with
  | nil =>
    intro deps hcol r hr
    unfold collectTrip at hcol
    injection hcol with hd
    subst hd
    simp at hr
  | cons stu rest ih =>
    intro deps hcol r hr
    unfold collectTrip at hcol
    split at hcol
    · exact absurd hcol (by simp)
    · next r0 hp =>
      split at hcol
      · exact absurd hcol (by simp)
      · next rs hrest =>
        split at hcol
        · next d =>
          injection hcol with hd2
          subst hd2
          rcases List.mem_cons.mp hr with hre | hrm
          · subst hre
            exact ⟨stu, by simp, hp⟩
          · obtain ⟨stu2, hm2, hp2⟩ := ih hrest hrm
            exact ⟨stu2, by simp [hm2], hp2⟩
        · injection hcol with hd2
          subst hd2
          obtain ⟨stu2, hm2, hp2⟩ := ih hrest hr
          exact ⟨stu2, by simp [hm2], hp2⟩

/-- Any record in an ok result of collectFeed comes from one trip update
and one of its stop-time updates. -/
theorem mem_collectFeed {hs : Str → Option Str} {targets : List Str} {now : Int} :
    ∀ {feed : List TripUpdate} {deps : List DepartureRecord},
      collectFeed hs targets now feed = .ok deps → ∀ {r : DepartureRecord}, r ∈ deps →
      ∃ tu ∈ feed, ∃ stu ∈ tu.stop_time_update,
        processStopTimeUpdate hs targets now tu.trip stu = .ok (some r) := by
  intro feed
  induction feed with
  | nil =>
    intro deps hcol r hr
    unfold collectFeed at hcol
    injection hcol with hd
    subst hd
    simp at hr
  | cons tu rest ih =>
    intro deps hcol r hr
    unfold collectFeed at hcol
    split at hcol
    · exact absurd hcol (by simp)
    · next l1 h1 =>
      split at hcol
      · exact absurd hcol (by simp)
      · next l2 h2 =>
        injection hcol with hd
        subst hd
        rcases List.mem_append.mp hr with hm1 | hm2
        · obtain ⟨stu, hms, hps⟩ := mem_collectTrip h1 hm1
          exact ⟨tu, by simp, stu, hms, hps⟩
        · obtain ⟨tu2, hmt, stu, hms, hps⟩ := ih h2 hm2
          exact ⟨tu2, by simp [hmt], stu, hms, hps⟩

/-- Inversion of processStopTimeUpdate: a produced record determines the
event time and cardinal, and records every guard the code checked. -/
theorem process_ok_some_inv {hs : Str → Option Str} {targets : List Str} {now : Int}
    {trip : TripDescriptor} {stu : StopTimeUpdate} {r : DepartureRecord}
    (h : processStopTimeUpdate hs targets now trip stu = .ok (some r)) :
    ∃ t cardinal,
      stu.stop_id ∈ targets ∧
      rawEventTime stu = some t ∧
      t ≠ 0 ∧
      (0 ≤ Int.tdiv (t - now) 60 ∧ Int.tdiv (t - now) 60 ≤ 60) ∧
      computeCardinal (hs (trip.trip_id.getD [])) = .ok cardinal ∧
      isRoute57South (trip.route_id.getD (str "N/A")) cardinal
        (resolveDirection (trip.route_id.getD (str "N/A")) cardinal trip.direction_id) = false ∧
      r = { route_number := trip.route_id.getD (str "N/A")
            direction := resolveDirection (trip.route_id.getD (str "N/A")) cardinal trip.direction_id
            direction_id := trip.direction_id
            arrival_minutes := Int.tdiv (t - now) 60
            scheduled_time := t
            trip_id := trip.trip_id.getD [] } := by
  unfold processStopTimeUpdate at h
  split at h
  · next hmem =>
    split at h
    · next t hraw =>
      split at h
      · next ht0 =>
        split at h
        · next hwin =>
          split at h
          · exact absurd h (by simp)
          · next cardinal hcc =>
            split at h
            · exact absurd h (by simp)
            · next h57 =>
              injection h with h1
              injection h1 with h2
              exact ⟨t, cardinal, hmem, hraw, ht0, hwin, hcc,
                by simpa using h57, h2.symm⟩
        · exact absurd h (by simp)
      · exact absurd h (by simp)
    · exact absurd h (by simp)
  · exact absurd h (by simp)

/-- The relation fetch_stm_departures sorts by is total. -/
instance departureLeTotal :
    IsTotal DepartureRecord (fun a b => a.arrival_minutes ≤ b.arrival_minutes) :=
  ⟨fun a b => Int.le_total a.arrival_minutes b.arrival_minutes⟩

/-- The relation fetch_stm_departures sorts by is transitive. -/
instance departureLeTrans :
    IsTrans DepartureRecord (fun a b => a.arrival_minutes ≤ b.arrival_minutes) :=
  ⟨fun _ _ _ hab hbc => le_trans hab hbc⟩

/-- Claim C3.  Every DepartureRecord emitted by fetch_stm_departures has
0 <= arrival_minutes <= 60, for every feed input, target stop set, clock
value and schedule cache state. -/
theorem c3_minutes_window (hs : Str → Option Str) (targets : List Str) (now : Int)
    (feed : List TripUpdate) (r : DepartureRecord)
    (hr : r ∈ fetchStmDepartures hs targets now feed) :
    0 ≤ r.arrival_minutes ∧ r.arrival_minutes ≤ 60 := by
  unfold fetchStmDepartures at hr
  cases hcol : collectFeed hs targets now feed with
  | error e => rw [hcol] at hr; simp at hr
  | ok deps =>
    rw [hcol] at hr
    obtain ⟨tu, _, stu, _, hp⟩ := mem_collectFeed hcol
      ((List.perm_insertionSort _ deps).mem_iff.mp (List.mem_of_mem_take hr))
    obtain ⟨t, cardinal, _, _, _, hwin, _, _, hrec⟩ := process_ok_some_inv hp
    rw [hrec]
    exact hwin

/-- Witness for C3 at a concrete feed with one departure five minutes out. -/
theorem c3_witness :
    0 ≤ (⟨str "10", none, none, 5, 1300, str "t1"⟩ : DepartureRecord).arrival_minutes ∧
    (⟨str "10", none, none, 5, 1300, str "t1"⟩ : DepartureRecord).arrival_minutes ≤ 60 :=
  c3_minutes_window (fun _ => none) [str "S1"] 1000
    [⟨⟨some (str "t1"), some (str "10"), none⟩, [⟨str "S1", some 1300, none⟩]⟩]
    ⟨str "10", none, none, 5, 1300, str "t1"⟩ (by decide)

/-- Claim C4.  The departure list returned by fetch_stm_departures is
sorted non-decreasing by arrival_minutes and has at most 20 entries, for
every input. -/
theorem c4_sorted_capped (hs : Str → Option Str) (targets : List Str) (now : Int)
    (feed : List TripUpdate) :
    List.Sorted (fun a b : DepartureRecord => a.arrival_minutes ≤ b.arrival_minutes)
      (fetchStmDepartures hs targets now feed) ∧
    (fetchStmDepartures hs targets now feed).length ≤ 20 := by
  unfold fetchStmDepartures
  cases hcol : collectFeed hs targets now feed with
  | error e => exact ⟨List.sorted_nil, by simp⟩
  | ok deps =>
    constructor
    · exact (List.sorted_insertionSort _ deps).sublist (List.take_sublist _ _)
    · rw [List.length_take]
      exact min_le_left _ _

/-- If the suppression check passed (returned false) on route 57 and the
resolved direction is the text d, then d contains neither "South" nor a
case-insensitive "south" nor "Costco". -/
theorem isRoute57South_false_direction {cardinal : Option Str} {direction : Option Str}
    {d : Str} (h57 : isRoute57South (str "57") cardinal direction = false)
    (hd : direction = some d) :
    containsSub (str "South") d = false ∧
    containsSub (str "south") (lowerStr d) = false ∧
    containsSub (str "Costco") d = false := by
  subst hd
  have hred : isRoute57South (str "57") cardinal (some d) =
      (if cardinal = some (str "South") then true
       else if d.isEmpty then false
       else if containsSub (str "South") d || containsSub (str "south") (lowerStr d) then true
       else containsSub (str "Costco") d) := by
    unfold isRoute57South
    rw [if_pos rfl]
  rw [hred] at h57
  split at h57
  · exact absurd h57 (by simp)
  · split at h57
    · next hemp =>
      have hdnil : d = [] := by simpa using hemp
      subst hdnil
      exact ⟨by decide, by decide, by decide⟩
    · split at h57
      · exact absurd h57 (by simp)
      · next hboth =>
        simp only [Bool.or_eq_true, not_or, Bool.not_eq_true] at hboth
        exact ⟨hboth.1, hboth.2, h57⟩

/-- Route 57 with extracted cardinal South is always suppressed, whatever
direction text was resolved. -/
theorem isRoute57South_of_south (direction : Option Str) :
    isRoute57South (str "57") (some (str "South")) direction = true := by
  unfold isRoute57South
  rw [if_pos rfl, if_pos rfl]

/-- Claim C2.  No departure on route 57 resolved to the South direction
appears in the output of fetch_stm_departures: every emitted route-57
record has a direction text free of "South", of case-insensitive "south"
and of the legacy marker "Costco" (first conjunct), and the extracted
cardinal of an emitted route-57 record is never South (second conjunct). -/
theorem c2_route57_suppression :
    (∀ (hs : Str → Option Str) (targets : List Str) (now : Int) (feed : List TripUpdate)
        (r : DepartureRecord), r ∈ fetchStmDepartures hs targets now feed →
        r.route_number = str "57" → ∀ d : Str, r.direction = some d →
        containsSub (str "South") d = false ∧
        containsSub (str "south") (lowerStr d) = false ∧
        containsSub (str "Costco") d = false) ∧
    (∀ (hs : Str → Option Str) (targets : List Str) (now : Int) (trip : TripDescriptor)
        (stu : StopTimeUpdate) (r : DepartureRecord),
        processStopTimeUpdate hs targets now trip stu = .ok (some r) →
        r.route_number = str "57" →
        computeCardinal (hs (trip.trip_id.getD [])) ≠ .ok (some (str "South"))) := by
  constructor
  · intro hs targets now feed r hr hroute d hd
    unfold fetchStmDepartures at hr
    cases hcol : collectFeed hs targets now feed with
    | error e => rw [hcol] at hr; simp at hr
    | ok deps =>
      rw [hcol] at hr
      obtain ⟨tu, _, stu, _, hp⟩ := mem_collectFeed hcol
        ((List.perm_insertionSort _ deps).mem_iff.mp (List.mem_of_mem_take hr))
      obtain ⟨t, cardinal, _, _, _, _, _, h57, hrec⟩ := process_ok_some_inv hp
      have hR : tu.trip.route_id.getD (str "N/A") = str "57" := by
        rw [hrec] at hroute; exact hroute
      have hdir : resolveDirection (tu.trip.route_id.getD (str "N/A")) cardinal
          tu.trip.direction_id = some d := by
        rw [hrec] at hd; exact hd
      rw [hR] at h57 hdir
      exact isRoute57South_false_direction h57 hdir
  · intro hs targets now trip stu r hp hroute hcs
    obtain ⟨t, cardinal, _, _, _, _, hcc, h57, hrec⟩ := process_ok_some_inv hp
    have hR : trip.route_id.getD (str "N/A") = str "57" := by
      rw [hrec] at hroute; exact hroute
    rw [hcc] at hcs
    injection hcs with hcs
    subst hcs
    rw [hR] at h57
    rw [isRoute57South_of_south] at h57
    exact absurd h57 (by simp)

/-- Witness for C2: a concrete feed where a route-57 record with the North
override direction is emitted, and its direction text triggers none of the
three detection paths. -/
theorem c2_witness :
    (containsSub (str "South") (str "Charlevoix, Georges-Vanier, Atwater") = false ∧
     containsSub (str "south") (lowerStr (str "Charlevoix, Georges-Vanier, Atwater")) = false ∧
     containsSub (str "Costco") (str "Charlevoix, Georges-Vanier, Atwater") = false) ∧
    computeCardinal ((fun _ => some (str "Nord")) (str "t1")) ≠ .ok (some (str "South")) := by
  constructor
  · exact c2_route57_suppression.1 (fun _ => some (str "Nord")) [str "S1"] 1000
      [⟨⟨some (str "t1"), some (str "57"), none⟩, [⟨str "S1", some 1300, none⟩]⟩]
      ⟨str "57", some (str "Charlevoix, Georges-Vanier, Atwater"), none, 5, 1300, str "t1"⟩
      (by decide) (by decide) (str "Charlevoix, Georges-Vanier, Atwater") (by decide)
  · exact c2_route57_suppression.2 (fun _ => some (str "Nord")) [str "S1"] 1000
      ⟨some (str "t1"), some (str "57"), none⟩ ⟨str "S1", some 1300, none⟩
      ⟨str "57", some (str "Charlevoix, Georges-Vanier, Atwater"), none, 5, 1300, str "t1"⟩
      (by decide) (by decide)

/-- Python int() truncation toward zero sends any value strictly between
-60 and 0 seconds to 0 minutes. -/
theorem tdiv_sixty_eq_zero_of_neg {a : Int} (h1 : -60 < a) (h2 : a < 0) :
    Int.tdiv a 60 = 0 := by
  match a with
  | Int.ofNat n =>
    rw [Int.ofNat_eq_natCast] at h2
    exact absurd h2 (by omega)
  | Int.negSucc m =>
    have hm : m + 1 < 60 := by
      rw [Int.negSucc_eq] at h1
      omega
    have hdiv : (m + 1) / 60 = 0 := Nat.div_eq_of_lt hm
    have hrepr : Int.tdiv (Int.negSucc m) 60 = -((m + 1 : Nat) / 60 : Nat) := by
      simp [Int.tdiv]
    rw [hrepr, hdiv]
    simp

/-- With no cardinal and no direction flag the resolved direction is
absent. -/
theorem resolveDirection_none_none (route : Str) :
    resolveDirection route none none = none := by
  simp [resolveDirection, truthy]

/-- The suppression check never fires without a cardinal and without a
direction. -/
theorem isRoute57South_none_none (route : Str) :
    isRoute57South route none none = false := by
  unfold isRoute57South
  split
  · simp
  · rfl

/-- Claim C6, counterexample.  An event 30 seconds in the past is selected
for output with minutes-until value 0 (Python int() truncation), while the
floor of (event_time - now)/60 is -1; the claim asserts the computed value
equals the floor and is -1 for such inputs. -/
theorem c6_counterexample :
    fetchStmDepartures (fun _ => none) [str "S1"] 1000
      [⟨⟨some (str "t1"), some (str "10"), none⟩, [⟨str "S1", some 970, none⟩]⟩] =
      [⟨str "10", none, none, 0, 970, str "t1"⟩] ∧
    Int.fdiv (970 - 1000) 60 = -1 := by decide

/-- Claim C6, amended.  The minutes-until value of every selected stop-time
update is int((event_time - now)/60) with truncation toward zero
(Int.tdiv), not floor; consequently an event strictly in the past but less
than one minute ago yields value 0 and is included in the output. -/
theorem c6_minutes_by_truncation :
    (∀ (hs : Str → Option Str) (targets : List Str) (now : Int) (trip : TripDescriptor)
        (stu : StopTimeUpdate) (r : DepartureRecord) (t : Int),
        processStopTimeUpdate hs targets now trip stu = .ok (some r) →
        rawEventTime stu = some t →
        r.arrival_minutes = Int.tdiv (t - now) 60) ∧
    (∀ (now t : Int) (sid : Str), now - 60 < t → t < now → 0 < t →
        processStopTimeUpdate (fun _ => none) [sid] now ⟨none, none, none⟩
          ⟨sid, some t, none⟩ = .ok (some ⟨str "N/A", none, none, 0, t, []⟩)) := by
  constructor
  · intro hs targets now trip stu r t hp hraw
    obtain ⟨t2, cardinal, _, hraw2, _, _, _, _, hrec⟩ := process_ok_some_inv hp
    rw [hraw] at hraw2
    injection hraw2 with ht
    subst ht
    rw [hrec]
  · intro now t sid h1 h2 h3
    have hz : Int.tdiv (t - now) 60 = 0 := tdiv_sixty_eq_zero_of_neg (by omega) (by omega)
    unfold processStopTimeUpdate
    rw [if_pos (show sid ∈ [sid] by simp)]
    simp only [rawEventTime]
    rw [if_pos (show t ≠ 0 by omega)]
    rw [hz]
    rw [if_pos (show (0 : Int) ≤ 0 ∧ (0 : Int) ≤ 60 by constructor <;> decide)]
    simp only [Option.getD_none, computeCardinal]
    rw [resolveDirection_none_none, isRoute57South_none_none]
    rfl

/-- Witness for the amended C6 theorem: a record five minutes out carries
tdiv minutes, and a concrete 30-seconds-past event is emitted with 0. -/
theorem c6_witness :
    (⟨str "10", none, none, 5, 1300, str "t1"⟩ : DepartureRecord).arrival_minutes =
      Int.tdiv (1300 - 1000) 60 ∧
    processStopTimeUpdate (fun _ => none) [str "S"] 1000 ⟨none, none, none⟩
      ⟨str "S", some 970, none⟩ = .ok (some ⟨str "N/A", none, none, 0, 970, []⟩) := by
  constructor
  · exact c6_minutes_by_truncation.1 (fun _ => none) [str "S1"] 1000
      ⟨some (str "t1"), some (str "10"), none⟩ ⟨str "S1", some 1300, none⟩
      ⟨str "10", none, none, 5, 1300, str "t1"⟩ 1300 (by decide) (by decide)
  · exact c6_minutes_by_truncation.2 1000 970 (str "S") (by decide) (by decide) (by decide)

/-- An extracted cardinal is always one of the four cardinal strings. -/
theorem extractCardinal_cases {t c : Str} (h : extractCardinal t = some c) :
    c = str "North" ∨ c = str "South" ∨ c = str "East" ∨ c = str "West" := by
  unfold extractCardinal at h
  split at h
  · next hor =>
    injection h with h
    subst h
    exact hor
  · split at h
    · injection h with h
      exact Or.inl h.symm
    · split at h
      · injection h with h
        exact Or.inr (Or.inl h.symm)
      · split at h
        · injection h with h
          exact Or.inr (Or.inr (Or.inl h.symm))
        · split at h
          · injection h with h
            exact Or.inr (Or.inr (Or.inr h.symm))
          · exact absurd h (by simp)

/-- A successful association-list lookup yields a member pair. -/
theorem lookupAssoc_mem : ∀ {m : List (Str × Str)} {c v : Str},
    lookupAssoc m c = some v → (c, v) ∈ m := by
  intro m
  induction m with
  | nil => intro c v h; simp [lookupAssoc] at h
  | cons p rest ih =>
    intro c v h
    unfold lookupAssoc at h
    split at h
    · next hk =>
      injection h with h
      subst hk
      subst h
      exact List.mem_cons_self _ _
    · exact List.mem_cons_of_mem _ (ih h)

/-- The override table has exactly the three literal rows of
CUSTOM_TERMINUS_MAP. -/
theorem customTerminusLookup_cases {route : Str} {m : List (Str × Str)}
    (h : customTerminusLookup route = some m) :
    m = [(str "West", str "Verdun"), (str "East", str "Square Victoria")] ∨
    m = [(str "North", str "Guy Concordia"),
         (str "South", str "De L" ++ [Char.ofNat 39] ++ str "Eglise")] ∨
    m = [(str "North", str "Charlevoix, Georges-Vanier, Atwater")] := by
  unfold customTerminusLookup at h
  split at h
  · injection h with h
    exact Or.inl h.symm
  · split at h
    · injection h with h
      exact Or.inr (Or.inl h.symm)
    · split at h
      · injection h with h
        exact Or.inr (Or.inr h.symm)
      · exact absurd h (by simp)

/-- No override value is the placeholder string Unknown. -/
theorem overrideFor_ne_unknown {route c v : Str} (h : overrideFor route c = some v) :
    v ≠ str "Unknown" := by
  unfold overrideFor at h
  cases hL : customTerminusLookup route with
  | none => rw [hL] at h; exact absurd h (by simp)
  | some m =>
    rw [hL] at h
    have hmem := lookupAssoc_mem h
    rcases customTerminusLookup_cases hL with hm | hm | hm
    · subst hm
      simp only [List.mem_cons, List.not_mem_nil, or_false, Prod.mk.injEq] at hmem
      rcases hmem with ⟨hc, hv⟩ | ⟨hc, hv⟩ <;> subst hv <;> decide
    · subst hm
      simp only [List.mem_cons, List.not_mem_nil, or_false, Prod.mk.injEq] at hmem
      rcases hmem with ⟨hc, hv⟩ | ⟨hc, hv⟩ <;> subst hv <;> decide
    · subst hm
      simp only [List.mem_cons, List.not_mem_nil, or_false, Prod.mk.injEq] at hmem
      rcases hmem with ⟨hc, hv⟩
      subst hv
      decide

/-- A cardinal produced by computeCardinal is absent or one of the four
cardinal strings. -/
theorem computeCardinal_ok_shape {hsv : Option Str} {card : Option Str}
    (hc : computeCardinal hsv = .ok card) :
    card = none ∨ ∃ c, card = some c ∧
      (c = str "North" ∨ c = str "South" ∨ c = str "East" ∨ c = str "West") := by
  cases hsv with
  | none =>
    simp only [computeCardinal] at hc
    injection hc with hc
    exact Or.inl hc.symm
  | some h =>
    simp only [computeCardinal] at hc
    split at hc
    · injection hc with hc
      exact Or.inl hc.symm
    · split at hc
      · next tr htr =>
        injection hc with hc
        cases hec : extractCardinal tr with
        | none => rw [hec] at hc; exact Or.inl hc.symm
        | some c => rw [hec] at hc; exact Or.inr ⟨c, hc.symm, extractCardinal_cases hec⟩
      · exact absurd hc (by simp)

/-- The possible outcomes of resolveDirection: absent, the cardinal
itself, a direction-flag value, or an override value. -/
theorem resolveDirection_shape (route : Str) (card : Option Str) (dirId : Option Nat) :
    resolveDirection route card dirId = none ∨
    resolveDirection route card dirId = card ∨
    resolveDirection route card dirId = some (str "Outbound") ∨
    resolveDirection route card dirId = some (str "Inbound") ∨
    ∃ v, overrideFor route (card.getD []) = some v ∧
      resolveDirection route card dirId = some v := by
  unfold resolveDirection
  split
  · cases hov : overrideFor route (card.getD []) with
    | some ov => exact Or.inr (Or.inr (Or.inr (Or.inr ⟨ov, rfl, rfl⟩)))
    | none => exact Or.inr (Or.inl rfl)
  · split
    · exact Or.inr (Or.inl rfl)
    · cases dirId with
      | none => exact Or.inl rfl
      | some n =>
        cases n with
        | zero => exact Or.inr (Or.inr (Or.inl rfl))
        | succ m =>
          cases m with
          | zero => exact Or.inr (Or.inr (Or.inr (Or.inl rfl)))
          | succ k => exact Or.inl rfl

/-- The resolved direction of the Direction Resolver is never the
placeholder string Unknown. -/
theorem resolveFromHeadsign_ne_unknown {route : Str} {headsign : Option Str}
    {dirId : Option Nat} {d card : Option Str}
    (h : resolveFromHeadsign route headsign dirId = .ok (d, card)) :
    d ≠ some (str "Unknown") := by
  unfold resolveFromHeadsign at h
  split at h
  · exact absurd h (by simp)
  · next card0 hcc =>
    injection h with h
    injection h with hd hcard
    rw [← hd]
    rcases resolveDirection_shape route card0 dirId with h0 | h0 | h0 | h0 | ⟨v, hov, h0⟩
    · rw [h0]; simp
    · rw [h0]
      rcases computeCardinal_ok_shape hcc with hnone | ⟨c, hc, hfour⟩
      · subst hnone; simp
      · subst hc
        rcases hfour with h4 | h4 | h4 | h4 <;> subst h4 <;> decide
    · rw [h0]; decide
    · rw [h0]; decide
    · rw [h0]
      have := overrideFor_ne_unknown hov
      simp [this]

/-- Claim C5.  Direction resolution applies the deterministic fallback
order: a matching override entry for (route, extracted cardinal) wins;
otherwise the extracted cardinal wins; otherwise the raw direction flag is
mapped 0 to Outbound and 1 to Inbound; otherwise the direction is absent
and never the placeholder Unknown.  A headsign Nord on a route with no
override for North resolves to North, and on route 57 (whose table has a
North entry) it resolves to the override string. -/
theorem c5_direction_fallback :
    (∀ (route t c : Str) (dirId : Option Nat) (ov : Str),
        extractCardinal t = some c → overrideFor route c = some ov →
        resolveDirection route (some c) dirId = some ov) ∧
    (∀ (route t c : Str) (dirId : Option Nat),
        extractCardinal t = some c → overrideFor route c = none →
        resolveDirection route (some c) dirId = some c) ∧
    (∀ route : Str, resolveDirection route none (some 0) = some (str "Outbound")) ∧
    (∀ route : Str, resolveDirection route none (some 1) = some (str "Inbound")) ∧
    (∀ route : Str, resolveDirection route none none = none) ∧
    (∀ (route : Str) (n : Nat), 2 ≤ n → resolveDirection route none (some n) = none) ∧
    (∀ (route : Str) (headsign : Option Str) (dirId : Option Nat) (d card : Option Str),
        resolveFromHeadsign route headsign dirId = .ok (d, card) →
        d ≠ some (str "Unknown")) ∧
    (∀ (route : Str) (dirId : Option Nat), overrideFor route (str "North") = none →
        resolveFromHeadsign route (some (str "Nord")) dirId =
          .ok (some (str "North"), some (str "North"))) ∧
    (∀ dirId : Option Nat, resolveFromHeadsign (str "57") (some (str "Nord")) dirId =
        .ok (some (str "Charlevoix, Georges-Vanier, Atwater"), some (str "North"))) := by
  have htrFour : ∀ c : Str,
      c = str "North" ∨ c = str "South" ∨ c = str "East" ∨ c = str "West" →
      truthy (some c) = true := by
    intro c hf
    rcases hf with h | h | h | h <;> subst h <;> decide
  refine ⟨?_, ?_, ?_, ?_, ?_, ?_, ?_, ?_, ?_⟩
  · intro route t c dirId ov hec hov
    have htr := htrFour c (extractCardinal_cases hec)
    have hS : (customTerminusLookup route).isSome = true := by
      unfold overrideFor at hov
      cases hL : customTerminusLookup route with
      | none =>
        rw [hL] at hov
        simp at hov
      | some m => rfl
    unfold resolveDirection
    rw [if_pos ⟨hS, htr⟩]
    simp only [Option.getD_some]
    rw [hov]
  · intro route t c dirId hec hov
    have htr := htrFour c (extractCardinal_cases hec)
    by_cases hS : (customTerminusLookup route).isSome = true
    · unfold resolveDirection
      rw [if_pos ⟨hS, htr⟩]
      simp only [Option.getD_some]
      rw [hov]
    · unfold resolveDirection
      rw [if_neg (fun hcond => hS hcond.1), if_pos htr]
  · intro route
    simp [resolveDirection, truthy]
  · intro route
    simp [resolveDirection, truthy]
  · intro route
    simp [resolveDirection, truthy]
  · intro route n h2
    obtain ⟨k, rfl⟩ : ∃ k, n = k + 2 := ⟨n - 2, by omega⟩
    simp [resolveDirection, truthy]
  · intro route headsign dirId d card h
    exact resolveFromHeadsign_ne_unknown h
  · intro route dirId hov
    have hcc : computeCardinal (some (str "Nord")) = .ok (some (str "North")) := by decide
    unfold resolveFromHeadsign
    rw [hcc]
    have hres : resolveDirection route (some (str "North")) dirId = some (str "North") := by
      by_cases hS : (customTerminusLookup route).isSome = true
      · unfold resolveDirection
        rw [if_pos ⟨hS, by decide⟩]
        simp only [Option.getD_some]
        rw [hov]
      · unfold resolveDirection
        rw [if_neg (fun hcond => hS hcond.1), if_pos (by decide)]
    show Except.ok (resolveDirection route (some (str "North")) dirId, some (str "North")) =
      Except.ok (some (str "North"), some (str "North"))
    rw [hres]
  · intro dirId
    have hcc : computeCardinal (some (str "Nord")) = .ok (some (str "North")) := by decide
    unfold resolveFromHeadsign
    rw [hcc]
    have hres : resolveDirection (str "57") (some (str "North")) dirId =
        some (str "Charlevoix, Georges-Vanier, Atwater") := by
      unfold resolveDirection
      rw [if_pos ⟨by decide, by decide⟩]
      simp only [Option.getD_some]
      rw [show overrideFor (str "57") (str "North") =
        some (str "Charlevoix, Georges-Vanier, Atwater") by decide]
    show Except.ok
        (resolveDirection (str "57") (some (str "North")) dirId, some (str "North")) =
      Except.ok (some (str "Charlevoix, Georges-Vanier, Atwater"), some (str "North"))
    rw [hres]

/-- Witness for C5, exercising the override branch, the bare-cardinal
branch, the out-of-range direction flag, the never-Unknown conjunct and
the Nord example with no override. -/
theorem c5_witness :
    resolveDirection (str "71") (some (str "North")) none = some (str "Guy Concordia") ∧
    resolveDirection (str "10") (some (str "East")) none = some (str "East") ∧
    resolveDirection (str "9") none (some 5) = none ∧
    some (str "Outbound") ≠ some (str "Unknown") ∧
    resolveFromHeadsign (str "10") (some (str "Nord")) none =
      .ok (some (str "North"), some (str "North")) := by
  refine ⟨?_, ?_, ?_, ?_, ?_⟩
  · exact c5_direction_fallback.1 (str "71") (str "North") (str "North") none
      (str "Guy Concordia") (by decide) (by decide)
  · exact c5_direction_fallback.2.1 (str "10") (str "East") (str "East") none
      (by decide) (by decide)
  · exact c5_direction_fallback.2.2.2.2.2.1 (str "9") 5 (by decide)
  · exact c5_direction_fallback.2.2.2.2.2.2.1 (str "8") none (some 0)
      (some (str "Outbound")) none (by decide)
  · exact c5_direction_fallback.2.2.2.2.2.2.2.1 (str "10") none (by decide)

/-! ### Dashboard aggregation (get_dashboard and the sibling fetches) -/

/-- Weather payload of fetch_weather on success (floats idealized as Int;
the dashboard claims never inspect these values). -/
structure WeatherData where
  temperature : Int
  feels_like : Int
  condition : Str
  weather_code : Int
  wind_speed : Int
  wind_direction : Int
  precipitation_probability : Int
  humidity : Int
deriving DecidableEq, Repr

/-- BIXI station status entry built by fetch_bixi_status. -/
structure BixiStation where
  station_id : Str
  name : Str
  bikes_available : Int
  docks_available : Int
  is_renting : Bool
  is_returning : Bool
deriving DecidableEq, Repr

/-- AQI payload of fetch_aqi.  The failure placeholder carries no pm
fields, hence the two Option fields. -/
structure AqiData where
  value : Int
  category : Str
  severity : Str
  pm2_5 : Option Int
  pm10 : Option Int
deriving DecidableEq, Repr

/-- Current air-quality readings of the upstream API. -/
structure AqiInput where
  european_aqi : Int
  pm2_5 : Int
  pm10 : Int
deriving DecidableEq, Repr

/-- The six-tier AQI bucketing of fetch_aqi. -/
def aqiCategory (v : Int) : Str × Str :=
  if v ≤ 50 then (str "Good", str "info")
  else if v ≤ 100 then (str "Moderate", str "info")
  else if v ≤ 150 then (str "Unhealthy for Sensitive Groups", str "warning")
  else if v ≤ 200 then (str "Unhealthy", str "warning")
  else if v ≤ 300 then (str "Very Unhealthy", str "critical")
  else (str "Hazardous", str "critical")

/-- fetch_aqi: buckets a successful reading, and degrades to the neutral
Unknown/info object on any failure (`none` models the except branch). -/
def fetchAqi (outcome : Option AqiInput) : AqiData :=
  match outcome with
  | some c =>
    { value := c.european_aqi
      category := (aqiCategory c.european_aqi).1
      severity := (aqiCategory c.european_aqi).2
      pm2_5 := some c.pm2_5
      pm10 := some c.pm10 }
  | none => { value := 0, category := str "Unknown", severity := str "info",
              pm2_5 := none, pm10 := none }

/-- Sunrise/sunset pair of calculate_sunrise_sunset (already formatted;
the iso duplicates are omitted). -/
structure SunTimes where
  sunrise : Str
  sunset : Str
deriving DecidableEq, Repr

/-- calculate_sunrise_sunset degrades to the N/A pair on failure. -/
def fetchSunriseSunset (outcome : Option SunTimes) : SunTimes :=
  match outcome with
  | some s => s
  | none => ⟨str "N/A", str "N/A"⟩

/-- fetch_weather returns its payload, or the empty dict (here `none`) on
any failure. -/
def fetchWeather (outcome : Option WeatherData) : Option WeatherData := outcome

/-- The weather value of the dashboard response: the fetched weather dict,
possibly extended by get_dashboard with the nested aqi and sunrise/sunset
entries. -/
structure WeatherOut where
  data : WeatherData
  aqi : Option AqiData
  sunrise : Option Str
  sunset : Option Str
deriving DecidableEq, Repr

/-- The dashboard snapshot of get_dashboard (the last_updated timestamp
string is omitted). -/
structure Dashboard where
  transit : List DepartureRecord
  bixi : List BixiStation
  weather : Option WeatherOut
deriving DecidableEq, Repr

/-- get_dashboard, from the five fetch results: the AQI object and the
sunrise/sunset pair are nested inside the weather dict only when the
weather dict is truthy (non-empty); fetch_aqi and calculate_sunrise_sunset
always return non-empty dicts, so their inner truthiness checks always
pass. -/
def buildDashboard (departures : List DepartureRecord) (stations : List BixiStation)
    (weather : Option WeatherData) (aqi : AqiData) (sun : SunTimes) : Dashboard :=
  match weather with
  | some w => { transit := departures, bixi := stations,
                weather := some { data := w, aqi := some aqi,
                                  sunrise := some sun.sunrise, sunset := some sun.sunset } }
  | none => { transit := departures, bixi := stations, weather := none }

/-- Claim C1, counterexample.  When every upstream fetch fails, fetch_aqi
does produce the neutral Unknown/info object, but the snapshot drops it:
the weather field of the all-fail dashboard is empty and no AQI object
appears anywhere in the snapshot, contradicting the claim that the
snapshot contains a neutral AQI object rather than it being absent. -/
theorem c1_counterexample :
    buildDashboard [] [] (fetchWeather none) (fetchAqi none) (fetchSunriseSunset none) =
      { transit := [], bixi := [], weather := none } ∧
    fetchAqi none =
      { value := 0, category := str "Unknown", severity := str "info",
        pm2_5 := none, pm10 := none } := by
  constructor
  · rfl
  · rfl

/-- Claim C1, amended.  With every upstream fetch failing, the dashboard
aggregation still returns a successful snapshot with transit departures []
and bixi stations []; fetch_aqi degrades to the neutral object with
category Unknown and severity info, but because the weather value is empty
that neutral object is not nested into the snapshot, whose weather field
stays empty. -/
theorem c1_all_fail_snapshot :
    buildDashboard (fetchStmDepartures (fun _ => none) [] 0 []) []
        (fetchWeather none) (fetchAqi none) (fetchSunriseSunset none) =
      { transit := [], bixi := [], weather := none } ∧
    (fetchAqi none).category = str "Unknown" ∧
    (fetchAqi none).severity = str "info" := by
  refine ⟨rfl, rfl, rfl⟩

/-- Claim C9.  Whenever the weather fetch fails (returns its empty
placeholder), the dashboard snapshot contains no AQI and no sunrise/sunset
data anywhere, whatever the sibling AQI and sunrise/sunset fetches
returned: the whole weather field is empty and nothing is nested. -/
theorem c9_failed_weather_drops_siblings (departures : List DepartureRecord)
    (stations : List BixiStation) (aqi : AqiData) (sun : SunTimes) :
    buildDashboard departures stations (fetchWeather none) aqi sun =
      { transit := departures, bixi := stations, weather := none } := rfl

/-! ### Static schedule cache build (load_gtfs_trip_headsigns) -/

/-- The two global mappings of the Static Schedule Cache:
GTFS_TRIP_HEADSIGNS and GTFS_TRIP_TERMINUS. -/
structure GtfsState where
  headsigns : List (Str × Str)
  terminus : List (Str × Str)
deriving DecidableEq, Repr

/-- Python dict assignment: replace the value at an existing key in place,
else append the pair. -/
def dictInsert (k v : Str) : List (Str × Str) → List (Str × Str)
  | [] => [(k, v)]
  | (k0, v0) :: rest => if k0 = k then (k, v) :: rest else (k0, v0) :: dictInsert k v rest

/-- One csv table as iterated by csv.DictReader: the rows the reader
yields, and whether the iteration then raises a parse error (so the rows
listed are exactly those processed before the failure). -/
structure CsvTable where
  rows : List (Str × Str)
  parseFail : Bool
deriving DecidableEq, Repr

/-- The downloaded archive: the three tables the builder reads, each
`none` when its file name is missing from the ZIP listing.  Rows are
(stop_id, stop_name) for stops, (trip_id, trip_headsign) for trips and
(trip_id, stop_id) for stop_times. -/
structure GtfsArchive where
  stops : Option CsvTable
  trips : Option CsvTable
  stopTimes : Option CsvTable
deriving DecidableEq, Repr

/-- The local stop_names map: rows with both fields non-empty inserted in
order. -/
def processStopNames (rows : List (Str × Str)) : List (Str × Str) :=
  rows.foldl (fun m r => if r.1 ≠ [] ∧ r.2 ≠ [] then dictInsert r.1 r.2 m else m) []

/-- The trips.txt pass: insert each row with non-empty trip_id and
headsign into the headsign mapping. -/
def tripsFold (rows : List (Str × Str)) (m : List (Str × Str)) : List (Str × Str) :=
  rows.foldl (fun acc r => if r.1 ≠ [] ∧ r.2 ≠ [] then dictInsert r.1 r.2 acc else acc) m

/-- Scan state of the stop_times.txt grouping pass: current trip id, last
stop id seen for it, and the terminus map built so far. -/
structure ScanState where
  curr : Option Str
  lastStop : Option Str
  term : List (Str × Str)
deriving DecidableEq, Repr

/-- stop_names.get(last_stop_id, last_stop_id). -/
def lookupD (m : List (Str × Str)) (k : Str) : Str :=
  match lookupAssoc m k with
  | some v => v
  | none => k

/-- One row of the stop_times.txt scan: on a trip change, flush the
previous trip terminus (when both current trip and last stop are truthy)
and restart; otherwise remember the last stop. -/
def stStep (stopNames : List (Str × Str)) (st : ScanState) (row : Str × Str) : ScanState :=
  if some row.1 ≠ st.curr then
    { curr := some row.1
      lastStop := some row.2
      term :=
        if truthy st.curr ∧ truthy st.lastStop then
          dictInsert (st.curr.getD []) (lookupD stopNames (st.lastStop.getD [])) st.term
        else st.term }
  else { st with lastStop := some row.2 }

/-- The body of load_gtfs_trip_headsigns after a successful download, over
the global state `s`: stops.txt builds the local stop_names (an exception
there leaves the globals untouched), trips.txt extends the headsign
mapping row by row (an exception keeps what was already inserted), and
stop_times.txt extends the terminus mapping through the grouping scan (an
exception skips the trailing flush but keeps what was inserted).  The
top-level handler only logs, so the state at the raise is the final
state. -/
def buildFromArchive (a : GtfsArchive) (s : GtfsState) : GtfsState :=
  if (match a.stops with | some t => t.parseFail | none => false) then s
  else
    let stopNames := match a.stops with | some t => processStopNames t.rows | none => []
    let s1 : GtfsState :=
      match a.trips with
      | some t => { s with headsigns := tripsFold t.rows s.headsigns }
      | none => s
    if (match a.trips with | some t => t.parseFail | none => false) then s1
    else
      match a.stopTimes with
      | none => s1
      | some t =>
        let scan := t.rows.foldl (stStep stopNames) ⟨none, none, s1.terminus⟩
        if t.parseFail then { s1 with terminus := scan.term }
        else
          { s1 with terminus :=
              if truthy scan.curr ∧ truthy scan.lastStop then
                (dictInsert (scan.curr.getD []) (lookupD stopNames (scan.lastStop.getD []))
                  scan.term)
              else scan.term }

/-- load_gtfs_trip_headsigns on the download-and-parse path (no valid
cache file): `none` models a network failure or an unopenable archive
(request exception, non-2xx status or bad ZIP), which leaves the global
state untouched. -/
def loadGtfsTripHeadsigns : Option GtfsArchive → GtfsState → GtfsState
  | none, s => s
  | some a, s => buildFromArchive a s

/-- Claim C7, counterexample.  A parse failure while reading
stop_times.txt (parseFail true) after trips.txt was fully processed
leaves the headsign mapping populated: starting from empty state, the
build ends with a non-empty headsign map despite the failure, so the
claim that any failure leaves both mappings empty is false. -/
theorem c7_counterexample :
    loadGtfsTripHeadsigns
        (some ⟨none, some ⟨[(str "t1", str "Nord")], false⟩, some ⟨[], true⟩⟩)
        ⟨[], []⟩ =
      ⟨[(str "t1", str "Nord")], []⟩ := by decide

/-- Claim C7, amended.  A network failure (or unopenable archive) during
the build leaves both mappings empty, and so does a parse failure before
any mapping row was inserted; but a parse failure after rows were
inserted keeps them: the build never rolls back, so partially populated
state is possible (here trips.txt was read and stop_times.txt failed,
leaving the headsign mapping populated and the terminus mapping empty). -/
theorem c7_failure_semantics :
    loadGtfsTripHeadsigns none ⟨[], []⟩ = ⟨[], []⟩ ∧
    loadGtfsTripHeadsigns (some ⟨some ⟨[], true⟩, some ⟨[(str "t1", str "Nord")], false⟩,
        some ⟨[], false⟩⟩) ⟨[], []⟩ = ⟨[], []⟩ ∧
    loadGtfsTripHeadsigns
        (some ⟨none, some ⟨[(str "t1", str "Nord")], false⟩, some ⟨[], true⟩⟩)
        ⟨[], []⟩ =
      ⟨[(str "t1", str "Nord")], []⟩ := by
  refine ⟨rfl, by decide, by decide⟩
